import Mathlib

/-!
Verification development for the onviftools repository.

The development shallowly embeds the two source files:

* onvif_discover.py — WS-Discovery probe construction, the UDP receive
  loop, the Probe-Match response parser and the scope-field extractor.
* onvif_info.py — the capability orchestrator: the per-call isolation
  wrapper safe_call, the serialization fallback serialize_obj, and the
  catalog pass of main with its dependency propagation and stream pass.

External collaborators (the socket layer, the XML parser, the SOAP/zeep
library, the uuid generator) are modelled by their observable behaviour:
the XML parser by the tree it returns or the error it raises, the SOAP
client by oracles mapping method names to fallible functions, uuid
generation by a fresh-value generator threaded through an explicit state.
Python exceptions are modelled with Except; machine behaviour such as
dict update and truthiness is reproduced explicitly.
-/

namespace Onvif

/-! ## Discovery engine: probe message construction (onvif_discover.py lines 16-36)

The source builds PROBE_MESSAGE as a module-level f-string, so the
embedded uuid.uuid4() call runs exactly once, at import time.  uuid
generation is modelled as a deterministic fresh-value generator on a
Nat state: each draw returns the current state and bumps it, so draws
from successive states are distinct. -/

def uuid4 (state : Nat) : Nat × Nat := (state, state + 1)

structure ProbeMessage where
  messageId : Nat
  toUri : String
  action : String
  types : String
deriving DecidableEq

/-- State of the loaded onvif_discover module: the message identifier that
was interpolated into the module-level PROBE_MESSAGE constant. -/
structure DiscoverModule where
  probeMessageId : Nat
deriving DecidableEq

/-- Importing the module evaluates the PROBE_MESSAGE f-string once, drawing
one uuid; returns the module state and the advanced generator state. -/
def load_discover_module (seed : Nat) : DiscoverModule × Nat :=
  let u := uuid4 seed
  ({ probeMessageId := u.1 }, u.2)

/-- The module-level PROBE_MESSAGE constant (lines 21-36): its MessageID is
the uuid drawn at import; To/Action/Types are fixed literals. -/
def PROBE_MESSAGE (m : DiscoverModule) : ProbeMessage :=
  { messageId := m.probeMessageId
    toUri := "urn:schemas-xmlsoap-org:ws:2005:04:discovery"
    action := "http://schemas.xmlsoap.org/ws/2005/04/discovery/Probe"
    types := "dn:NetworkVideoTransmitter" }

/-- The probe datagram sent by the invocation numbered i of
discover_onvif_devices (line 52): the function sends the module constant
PROBE_MESSAGE, so the payload does not depend on the invocation number. -/
def discover_sent_probe (m : DiscoverModule) (_i : Nat) : ProbeMessage :=
  PROBE_MESSAGE m

/-! ## Discovery engine: receive loop timing (onvif_discover.py lines 38-70)

The source sets a fixed socket timeout once (sock.settimeout(timeout),
line 44) and then loops on recvfrom; each call blocks up to that same
timeout, and the loop ends when one call times out.  The loop is
modelled over the schedule of datagram arrivals, given as the gap (in
the same time unit as the timeout) between the start of each receive
call and the arrival of the next datagram.  A receive with gap at most
the timeout delivers its datagram after gap time units; otherwise the
call times out after exactly the timeout and the loop breaks.
recv_loop returns (number of datagrams received, total elapsed time). -/

def TIMEOUT : Nat := 5

def recv_loop (timeout : Nat) : List Nat → Nat × Nat
  | [] => (0, timeout)
  | gap :: rest =>
    if gap ≤ timeout then
      let r := recv_loop timeout rest
      (r.1 + 1, gap + r.2)
    else
      (0, timeout)

/-! ## Discovery engine: response parsing (onvif_discover.py lines 72-105)

The XML layer (xml.etree.ElementTree) is external; a raw datagram text
is abstracted by what ET.fromstring does with it: either a parsed
element tree, or a raised ParseError carrying a description and a
position, which str() renders as "desc: line L, column C". -/

structure QName where
  ns : String
  name : String
deriving DecidableEq

inductive XMLElem where
  | node (tag : QName) (text : Option String) (children : List XMLElem)

def XMLElem.tag : XMLElem → QName
  | .node t _ _ => t

def XMLElem.text : XMLElem → Option String
  | .node _ x _ => x

def XMLElem.children : XMLElem → List XMLElem
  | .node _ _ c => c

mutual

/-- All proper descendants of an element in document (preorder) order,
matching the traversal of ElementTree findall with a ".//" path. -/
def descendants : XMLElem → List XMLElem
  | .node _ _ cs => descendantsList cs

def descendantsList : List XMLElem → List XMLElem
  | [] => []
  | c :: cs => c :: (descendants c ++ descendantsList cs)

end

/-- root.findall(".//q", ns): all descendants with the given qualified tag,
in document order. -/
def findall (root : XMLElem) (q : QName) : List XMLElem :=
  (descendants root).filter (fun e => e.tag = q)

/-- An ET.ParseError raised by ET.fromstring: a short description plus the
line and column of the failure. -/
structure ETError where
  desc : String
  line : Nat
  col : Nat

/-- Rendering of an ET.ParseError by str(), as caught at line 98. -/
def etErrorStr (e : ETError) : String :=
  e.desc ++ ": line " ++ toString e.line ++ ", column " ++ toString e.col

/-- A raw XML text, abstracted by the behaviour of ET.fromstring on it:
well-formed texts are carried as their parsed tree, malformed texts as
the ParseError the library raises. -/
inductive RawXML where
  | wellFormed (root : XMLElem)
  | malformed (err : ETError)

def discoveryNS : String := "http://schemas.xmlsoap.org/ws/2005/04/discovery"

def scopesTag : QName := ⟨discoveryNS, "Scopes"⟩

def xaddrsTag : QName := ⟨discoveryNS, "XAddrs"⟩

/-- The info dict built by parse_probe_response. -/
structure DeviceInfo where
  scopes : List String
  xaddrs : List String
  manufacturer : Option String
  model : Option String
  hardware : Option String
  location : Option String
  error : Option String
deriving DecidableEq

def emptyInfo : DeviceInfo :=
  { scopes := [], xaddrs := [], manufacturer := none, model := none
    hardware := none, location := none, error := none }

/-- Longest run of characters preceding the first space, mirroring what the
regex fragment of one-or-more non-space characters captures greedily. -/
def takeNonSpace : List Char → List Char
  | [] => []
  | c :: cs => if c = ' ' then [] else c :: takeNonSpace cs

/-- Left-to-right scan of re.search for the pattern key followed by a
capture of one or more non-space characters: at each position, if the
literal key is a prefix here and at least one non-space character
follows it, the capture is returned; otherwise the scan advances. -/
def searchKeyVal (key : List Char) : List Char → Option (List Char)
  | [] => none
  | c :: cs =>
    if key.isPrefixOf (c :: cs) then
      match takeNonSpace (List.drop key.length (c :: cs)) with
      | [] => searchKeyVal key cs
      | v => some v
    else
      searchKeyVal key cs

/-- extract_scope_field (lines 102-105): group(1) of
re.search(re.escape(key) + "/([^ ]+)", scope_str), or None. -/
def extract_scope_field (scope_str key : String) : Option String :=
  match searchKeyVal (key.data ++ [ '/' ]) scope_str.data with
  | some v => some (String.mk v)
  | none => none

/-- Specification-side reading of the extractor: among all suffix positions
of the scope string in order, the first at which the key (with its
trailing slash) occurs immediately followed by a non-space character
yields the non-space run after the key. -/
def keyValAt (key t : List Char) : Option (List Char) :=
  if key.isPrefixOf t then
    match takeNonSpace (t.drop key.length) with
    | [] => none
    | v => some v
  else none

def specExtractField (scope_str key : String) : Option String :=
  ((scope_str.data.tails.filterMap (keyValAt (key.data ++ [ '/' ]))).head?).map
    (fun l => String.mk l)

/-- The XAddrs loop of lines 88-90: appends x.text.strip() for each element
in order; an element whose text is absent makes x.text.strip() raise
AttributeError, which stops the loop with the strings collected so far
and the raised message (caught by the enclosing handler). -/
def xaddrsCollect : List XMLElem → List String × Option String
  | [] => ([], none)
  | x :: rest =>
    match x.text with
    | none => ([], some "AttributeError: NoneType object has no attribute strip")
    | some t =>
      let r := xaddrsCollect rest
      (t.trim :: r.1, r.2)

/-- parse_probe_response (lines 72-100).  The info dict starts with empty
Scopes and XAddrs; the body parses the text, collects all Scopes texts
(defaulting absent text to the empty string, then stripping), collects
all XAddrs texts (stripping without a default), then extracts the four
scope fields from the space-joined scopes.  Any exception — a
ParseError from fromstring or the AttributeError from a text-less
XAddrs element — is caught and recorded in the error field, leaving
the fields already assigned in place. -/
def parse_probe_response (x : RawXML) : DeviceInfo :=
  match x with
  | .malformed e => { emptyInfo with error := some (etErrorStr e) }
  | .wellFormed root =>
    let scopes := (findall root scopesTag).map (fun s => (s.text.getD "").trim)
    match xaddrsCollect (findall root xaddrsTag) with
    | (xs, some err) =>
      { emptyInfo with scopes := scopes, xaddrs := xs, error := some err }
    | (xs, none) =>
      let all_scopes := String.intercalate " " scopes
      { scopes := scopes
        xaddrs := xs
        manufacturer := extract_scope_field all_scopes "onvif://www.onvif.org/name"
        model := extract_scope_field all_scopes "onvif://www.onvif.org/model"
        hardware := extract_scope_field all_scopes "onvif://www.onvif.org/hardware"
        location := extract_scope_field all_scopes "onvif://www.onvif.org/location"
        error := none }

/-! ## Capability orchestrator (onvif_info.py)

Python values exchanged with the SOAP layer are modelled by PyVal with
Python truthiness; Python dicts keyed by strings are association lists
with in-place update on existing keys and append on fresh keys, which
is the observable behaviour of insertion-ordered dicts. -/

inductive PyVal where
  | vnone
  | vbool (b : Bool)
  | vint (n : Int)
  | vstr (s : String)
  | vlist (elems : List PyVal)
  | vdict (entries : List (String × PyVal))

/-- Python truthiness of a value. -/
def truthy : PyVal → Bool
  | .vnone => false
  | .vbool b => b
  | .vint n => n != 0
  | .vstr s => !s.isEmpty
  | .vlist l => !l.isEmpty
  | .vdict d => !d.isEmpty

/-- Python "a or b". -/
def pyOr (a b : PyVal) : PyVal := if truthy a then a else b

/-- d.get(k): the value behind the first matching key, if any. -/
def dictGet? {α : Type} (d : List (String × α)) (k : String) : Option α :=
  match d with
  | [] => none
  | (k1, v) :: rest => if k1 = k then some v else dictGet? rest k

/-- Python dict assignment d[k] = v: replace in place when the key exists,
append otherwise. -/
def dictSet {α : Type} (d : List (String × α)) (k : String) (v : α) :
    List (String × α) :=
  match d with
  | [] => [(k, v)]
  | (k1, v1) :: rest =>
    if k1 = k then (k, v) :: rest else (k1, v1) :: dictSet rest k v

/-- d.get(k) with the Python default None. -/
def dictGetV (d : List (String × PyVal)) (k : String) : PyVal :=
  match dictGet? d k with
  | some v => v
  | none => .vnone

/-- A SOAP sub-service object: getattr resolves a method name either to a
callable taking keyword arguments, or to a raised error (looked up
attribute missing).  Both the lookup and the call may raise; the raised
exception is carried as its rendered message. -/
structure Service where
  getattr : String → Except String (List (String × PyVal) → Except String PyVal)

/-- The external serialization collaborators of serialize_obj:
zeep.helpers.serialize_object, the json round-trip fallback with
default=str, and the total str() rendering. -/
structure ZeepLib where
  serialize_object : PyVal → Except String PyVal
  json_roundtrip : PyVal → Except String PyVal
  py_str : PyVal → String

/-- traceback.format_exc() for an exception with the given message. -/
def format_exc (msg : String) : String :=
  "Traceback (most recent call last): " ++ msg

/-- serialize_obj (lines 72-81): try serialize_object, fall back to the
json round trip, fall back to str(obj); never raises. -/
def serialize_obj (lib : ZeepLib) (obj : PyVal) : PyVal :=
  match lib.serialize_object obj with
  | .ok v => v
  | .error _ =>
    match lib.json_roundtrip obj with
    | .ok v => v
    | .error _ => .vstr (lib.py_str obj)

/-- Result dict of safe_call: a result record, a method-not-found record
(error text plus the rendered exception), or a failure record (error
message plus formatted traceback). -/
inductive CallOutcome where
  | success (result : PyVal)
  | methodNotFound (methodName exc : String)
  | failure (error traceback : String)

/-- safe_call (lines 58-70): resolve the method, call it, serialize the
result; a raise in either step is converted into the corresponding
error record and nothing propagates. -/
def safe_call (lib : ZeepLib) (service : Service) (method_name : String)
    (args : List (String × PyVal)) : CallOutcome :=
  match service.getattr method_name with
  | .error e => .methodNotFound method_name e
  | .ok method =>
    match method args with
    | .ok res => .success (serialize_obj lib res)
    | .error e => .failure e (format_exc e)

/-- An ONVIFCamera instance: the devicemgmt attribute and the per-category
service constructors, each of which may raise. -/
structure Camera where
  devicemgmt : Except String Service
  create_media_service : Except String Service
  create_imaging_service : Except String Service
  create_ptz_service : Except String Service
  create_events_service : Except String Service
  create_analytics_service : Except String Service

/-- service_creators (lines 107-115). -/
def creatorFor (cam : Camera) : String → Option (Except String Service)
  | "device" => some cam.devicemgmt
  | "media" => some cam.create_media_service
  | "imaging" => some cam.create_imaging_service
  | "ptz" => some cam.create_ptz_service
  | "events" => some cam.create_events_service
  | "analytics" => some cam.create_analytics_service
  | _ => none

/-- SERVICE_METHODS (lines 26-56), in source order. -/
def SERVICE_METHODS : List (String × List (String × List (String × PyVal))) :=
  [ ("device",
      [ ("GetServices", [("IncludeCapability", .vbool true)])
      , ("GetDeviceInformation", [])
      , ("GetSystemDateAndTime", [])
      , ("GetCapabilities", [("Category", .vstr "All")])
      , ("GetScopes", [])
      , ("GetHostname", [])
      , ("GetNetworkInterfaces", [])
      , ("GetNetworkProtocols", [])
      , ("GetNTP", [])
      , ("GetUsers", []) ])
  , ("media",
      [ ("GetProfiles", [])
      , ("GetServiceCapabilities", []) ])
  , ("imaging",
      [ ("GetServiceCapabilities", [])
      , ("GetImagingSettings", []) ])
  , ("ptz",
      [ ("GetServiceCapabilities", [])
      , ("GetNodes", []) ])
  , ("events",
      [ ("GetServiceCapabilities", []) ]) ]

/-- A value stored under a method name in a per-service result dict: a
safe_call outcome, a note, a raw string (creation error text or
traceback), or the per-token outcome list of the imaging branch. -/
inductive EntryVal where
  | out (o : CallOutcome)
  | note (s : String)
  | rawstr (s : String)
  | tokenOuts (l : List (PyVal × CallOutcome))

/-- A value of summary["services"]: the bare outcome dict stored under
"device_GetServices", or a per-service result dict. -/
inductive SvcVal where
  | outcome (o : CallOutcome)
  | table (d : List (String × EntryVal))

/-- Stage-tagged entry of summary["errors"]. -/
structure StageError where
  stage : String
  error : String
  traceback : String

/-- One value of the stream_uris map: a serialized GetStreamUri response or
the error record of a failed per-token call. -/
inductive StreamEntry where
  | ok (v : PyVal)
  | err (msg traceback : String)

/-- The summary dict assembled by main. -/
structure Summary where
  target : String
  services : List (String × SvcVal)
  errors : List StageError
  stream_uris : Option (List (PyVal × StreamEntry))
  device_info_summary : Option EntryVal

/-- The run context of line 118: profile tokens and video-source tokens. -/
structure Context where
  profiles : List PyVal
  video_source_tokens : List PyVal

/-- Line 142: out.get("result") or out.get("result", []) — the stored
result value when the outcome has one (even if falsy, since the second
get also finds the existing key), and the empty-list default otherwise. -/
def getProfilesValue (out : CallOutcome) : PyVal :=
  match out with
  | .success v => v
  | _ => .vlist []

/-- Lines 144-145: a dict with a "Profile" key is unwrapped to that key. -/
def unwrapProfileKey (v : PyVal) : PyVal :=
  match v with
  | .vdict d =>
    match dictGet? d "Profile" with
    | some p => p
    | none => .vdict d
  | _ => v

/-- Lines 149-150: a bare dict is coerced to a one-element list. -/
def coerceSingle (v : PyVal) : PyVal :=
  match v with
  | .vdict d => .vlist [.vdict d]
  | _ => v

/-- Lines 153-160: the token of one profile entry, via the truthiness
or-chain p.get("token") or p.get("@token") or p.get("token", None); a
non-dict entry makes the attribute access raise, which the inner
handler swallows, leaving no token. -/
def profileToken (p : PyVal) : PyVal :=
  match p with
  | .vdict d => pyOr (pyOr (dictGetV d "token") (dictGetV d "@token")) (dictGetV d "token")
  | _ => .vnone

/-- Lines 151-161: when the normalized profiles value is a list, collect
the truthy tokens of its entries in order and store them in the
context; any other shape leaves the context untouched. -/
def profilesTokens (v : PyVal) : Option (List PyVal) :=
  match v with
  | .vlist ps =>
    some (ps.filterMap (fun p => let t := profileToken p; if truthy t then some t else none))
  | _ => none

/-- Lines 180-191: the video-source token derivable from one profile entry:
Profile -> VideoSourceConfiguration -> SourceToken (or Token), with the
get-or idiom for the configuration and the truthiness or-chain for the
token; attribute errors on non-dict configurations are swallowed. -/
def vscToken (p : PyVal) : Option PyVal :=
  match p with
  | .vdict d =>
    match (match dictGet? d "VideoSourceConfiguration" with
           | some v => v
           | none => .vdict []) with
    | .vdict vd =>
      let t := pyOr (dictGetV vd "SourceToken") (dictGetV vd "Token")
      if truthy t then some t else none
    | _ => none
  | _ => none

/-- Lines 176-193: normalize the speculative profiles data to a list of
entries (unwrapping a "Profile" key, coercing a bare dict, treating a
missing key or a non-iterable as an aborted loop swallowed by the
enclosing handler) and collect the derivable video-source tokens. -/
def derivedVsTokens (profiles_data : PyVal) : List PyVal :=
  match profiles_data with
  | .vlist ps => ps.filterMap vscToken
  | .vdict d =>
    match dictGet? d "Profile" with
    | none => []
    | some pl =>
      match pl with
      | .vdict pd => (vscToken (.vdict pd)).toList
      | .vlist ps => ps.filterMap vscToken
      | _ => []
  | _ => []

/-- Truthiness of a stored services value viewed as a dict: outcome dicts
always hold at least one key; a table is truthy when non-empty. -/
def svcValTruthy : SvcVal → Bool
  | .outcome _ => true
  | .table d => !d.isEmpty

/-- Result lookup on a stored services value: the payload of a success
outcome dict under its "result" key; error records and tables without
a stored success under a "result" key yield nothing. -/
def svcGetResult (sv : SvcVal) : Option PyVal :=
  match sv with
  | .outcome (.success v) => some v
  | .outcome _ => none
  | .table d =>
    match dictGet? d "result" with
    | some (.out (.success v)) => some v
    | _ => none

/-- Lines 171-172: med = summary["services"].get("media_GetProfiles", then
profiles_data = med.get("result") if med else None.  The empty-dict
default of the first get is falsy, so an absent key yields None. -/
def medProfilesData (services : List (String × SvcVal)) : Option PyVal :=
  match dictGet? services "media_GetProfiles" with
  | none => none
  | some sv => if svcValTruthy sv then svcGetResult sv else none

/-- Lines 166-193: the tokens available to the imaging GetImagingSettings
call: the context's video-source tokens when non-empty, otherwise the
best-effort derivation from the stored report. -/
def imagingTokens (ctx : Context) (services : List (String × SvcVal)) : List PyVal :=
  if ctx.video_source_tokens.isEmpty then
    match medProfilesData services with
    | some pd => if truthy pd then derivedVsTokens pd else []
    | none => []
  else ctx.video_source_tokens

/-- Lines 194-205: the entry stored for GetImagingSettings — one safe_call
outcome per available token, or the prerequisite note when none. -/
def imagingEntry (lib : ZeepLib) (service : Service) (method : String)
    (tokens : List PyVal) : EntryVal :=
  if tokens.isEmpty then
    .note "requer VideoSourceToken; não encontrado automaticamente"
  else
    .tokenOuts (tokens.map (fun t =>
      (t, safe_call lib service method [("VideoSourceToken", t)])))

/-- One iteration of the per-service method loop (lines 135-209), updating
the running (svc_result, context, summary services) state.  The media
GetProfiles branch stores the outcome and propagates profile tokens
into the context; the imaging GetImagingSettings branch tries the
context, then the report-derivation, and either calls per token or
records the prerequisite note (assigning the service entry early in
both branches, as the source does); every other call is a plain
safe_call stored under its method name. -/
def processCall (lib : ZeepLib) (svcName : String) (service : Service)
    (st : List (String × EntryVal) × Context × List (String × SvcVal))
    (call : String × List (String × PyVal)) :
    List (String × EntryVal) × Context × List (String × SvcVal) :=
  let svc_result := st.1
  let ctx := st.2.1
  let services := st.2.2
  let method := call.1
  let args := call.2
  if svcName = "media" ∧ method = "GetProfiles" then
    let out := safe_call lib service method args
    let svc_result := dictSet svc_result method (.out out)
    let profiles := coerceSingle (unwrapProfileKey (getProfilesValue out))
    let ctx :=
      match profilesTokens profiles with
      | some toks => { ctx with profiles := toks }
      | none => ctx
    (svc_result, ctx, services)
  else if svcName = "imaging" ∧ method = "GetImagingSettings" then
    let entry := imagingEntry lib service method (imagingTokens ctx services)
    let svc_result := dictSet svc_result method entry
    (svc_result, ctx, dictSet services svcName (.table svc_result))
  else
    let out := safe_call lib service method args
    (dictSet svc_result method (.out out), ctx, services)

/-- One iteration of the outer catalog loop (lines 120-211): resolve the
creator, record the not-implemented note or the creation failure, or
run the method loop and store the per-service result dict. -/
def processService (lib : ZeepLib) (cam : Camera)
    (st : Context × List (String × SvcVal))
    (entry : String × List (String × List (String × PyVal))) :
    Context × List (String × SvcVal) :=
  let ctx := st.1
  let services := st.2
  let svcName := entry.1
  let calls := entry.2
  match creatorFor cam svcName with
  | none =>
    (ctx, dictSet services svcName (.table
      [("note", .note "serviço não implementado no script")]))
  | some (.error e) =>
    (ctx, dictSet services svcName (.table
      [ ("error", .rawstr ("falha ao criar serviço " ++ svcName ++ ": " ++ e))
      , ("traceback", .rawstr (format_exc e)) ]))
  | some (.ok service) =>
    let r := calls.foldl (processCall lib svcName service) ([], ctx, services)
    (r.2.1, dictSet r.2.2 svcName (.table r.1))

/-- Lines 97-104: the initial GetServices call through cam.devicemgmt,
stored under "device_GetServices"; a raise while obtaining the
attribute is recorded as a get_services stage error. -/
def initialServices (lib : ZeepLib) (cam : Camera) :
    List (String × SvcVal) × List StageError :=
  match cam.devicemgmt with
  | .error e => ([], [⟨"get_services", e, format_exc e⟩])
  | .ok ds =>
    ([("device_GetServices",
        .outcome (safe_call lib ds "GetServices" [("IncludeCapability", .vbool true)]))],
     [])

/-- The catalog pass: fold of processService over SERVICE_METHODS. -/
def catalogPass (lib : ZeepLib) (cam : Camera)
    (st : Context × List (String × SvcVal)) :
    Context × List (String × SvcVal) :=
  SERVICE_METHODS.foldl (processService lib cam) st

/-- The fixed request shape of the GetStreamUri call (line 220) plus the
profile token. -/
def streamSetupArgs (token : PyVal) : List (String × PyVal) :=
  [ ("StreamSetup", .vdict
      [ ("Stream", .vstr "RTP-Unicast")
      , ("Transport", .vdict [("Protocol", .vstr "RTSP")]) ])
  , ("ProfileToken", token) ]

/-- One per-token GetStreamUri call of lines 219-223: attribute lookup and
invocation under the per-token handler; success serializes the
response, a raise becomes the error record for this token. -/
def getStreamUriEntry (lib : ZeepLib) (media : Service) (token : PyVal) :
    StreamEntry :=
  match media.getattr "GetStreamUri" with
  | .error e => .err e (format_exc e)
  | .ok f =>
    match f (streamSetupArgs token) with
    | .ok v => .ok (serialize_obj lib v)
    | .error e => .err e (format_exc e)

/-- The stream pass of lines 213-226: nothing when no profile tokens were
derived; otherwise create the media service again (a raise becomes a
GetStreamUri stage error) and map every token to its entry. -/
def streamPass (lib : ZeepLib) (cam : Camera) (ctx : Context)
    (errors : List StageError) :
    Option (List (PyVal × StreamEntry)) × List StageError :=
  if ctx.profiles.isEmpty then (none, errors)
  else
    match cam.create_media_service with
    | .error e => (none, errors ++ [⟨"GetStreamUri", e, format_exc e⟩])
    | .ok media =>
      (some (ctx.profiles.map (fun t => (t, getStreamUriEntry lib media t))), errors)

/-- Lines 229-233: summary["services"].get("device") then its
GetDeviceInformation entry, when present. -/
def deviceInfoSummary (services : List (String × SvcVal)) : Option EntryVal :=
  match dictGet? services "device" with
  | some (.table d) => dictGet? d "GetDeviceInformation"
  | _ => none

/-- main (lines 83-249), with the JSON persistence and console printing
side effects omitted.  The Boolean result records whether the run took
the save_and_exit path after a failed connection (the distinguished
non-zero exit). -/
def runMain (lib : ZeepLib) (camResult : Except String Camera) : Summary × Bool :=
  match camResult with
  | .error e =>
    ({ target := "192.168.1.68:8899", services := [],
       errors := [⟨"connect", e, format_exc e⟩],
       stream_uris := none, device_info_summary := none }, true)
  | .ok cam =>
    let is0 := initialServices lib cam
    let cs := catalogPass lib cam ({ profiles := [], video_source_tokens := [] }, is0.1)
    let sp := streamPass lib cam cs.1 is0.2
    ({ target := "192.168.1.68:8899", services := cs.2,
       errors := sp.2, stream_uris := sp.1,
       device_info_summary := deviceInfoSummary cs.2 }, false)

/-! ## Helper lemmas for the discovery parser -/

theorem takeNonSpace_not_mem_space : ∀ l : List Char, ' ' ∉ takeNonSpace l := by
  intro l
  induction l with
  | nil => simp [takeNonSpace]
  | cons c cs ih =>
    simp only [takeNonSpace]
    split
    · simp
    · rename_i h
      simp only [List.mem_cons, not_or]
      exact ⟨fun hc => h hc.symm, ih⟩

theorem searchKeyVal_some_shape (key : List Char) :
    ∀ s v, searchKeyVal key s = some v → v ≠ [] ∧ ' ' ∉ v := by
  intro s
  induction s with
  | nil => intro v h; simp [searchKeyVal] at h
  | cons c cs ih =>
    intro v h
    simp only [searchKeyVal] at h
    by_cases hp : key.isPrefixOf (c :: cs)
    · rw [if_pos hp] at h
      cases ht : takeNonSpace (List.drop key.length (c :: cs)) with
      | nil => rw [ht] at h; exact ih v h
      | cons a as =>
        rw [ht] at h
        cases h
        refine ⟨by simp, ?_⟩
        rw [← ht]
        exact takeNonSpace_not_mem_space _
    · rw [if_neg hp] at h
      exact ih v h

theorem searchKeyVal_eq_spec (key : List Char) :
    ∀ s, searchKeyVal key s = (s.tails.filterMap (keyValAt key)).head? := by
  intro s
  induction s with
  | nil =>
    cases key with
    | nil => rfl
    | cons k ks => rfl
  | cons c cs ih =>
    rw [List.tails_cons, List.filterMap_cons]
    by_cases hp : key.isPrefixOf (c :: cs)
    · cases ht : takeNonSpace (List.drop key.length (c :: cs)) with
      | nil =>
        have hk : keyValAt key (c :: cs) = none := by
          simp only [keyValAt, if_pos hp, List.drop]
          rw [show (c :: cs).drop key.length = List.drop key.length (c :: cs) from rfl, ht]
        rw [hk]
        simp only [searchKeyVal, if_pos hp, ht]
        exact ih
      | cons a as =>
        have hk : keyValAt key (c :: cs) = some (a :: as) := by
          simp only [keyValAt, if_pos hp]
          rw [show (c :: cs).drop key.length = List.drop key.length (c :: cs) from rfl, ht]
        rw [hk]
        simp only [searchKeyVal, if_pos hp, ht, List.head?]
    · have hk : keyValAt key (c :: cs) = none := by
        simp only [keyValAt, if_neg hp]
      rw [hk]
      simp only [searchKeyVal, if_neg hp]
      exact ih

theorem xaddrsCollect_all_some :
    ∀ l : List XMLElem, (∀ x ∈ l, (XMLElem.text x).isSome) →
      xaddrsCollect l = (l.map (fun x => ((XMLElem.text x).getD "").trim), none) := by
  intro l
  induction l with
  | nil => intro _; rfl
  | cons x rest ih =>
    intro h
    have hx := h x (by simp)
    cases htext : x.text with
    | none => rw [htext] at hx; simp at hx
    | some t =>
      simp only [xaddrsCollect, htext]
      rw [ih (fun y hy => h y (List.mem_cons_of_mem _ hy))]
      simp [htext]

/-! ## Claims about the discovery engine -/

/-- C1, counterexample.  The source interpolates uuid.uuid4() into the
module-level PROBE_MESSAGE constant once at import, so two distinct
invocations of discover_onvif_devices in the same process send probes
with the same correlation identifier, refuting the claim that they are
distinct. -/
theorem C1_counterexample :
    (0 : Nat) ≠ 1 ∧
    (discover_sent_probe (load_discover_module 0).1 0).messageId =
      (discover_sent_probe (load_discover_module 0).1 1).messageId :=
  ⟨by decide, rfl⟩

/-- C1, amended.  The correlation identifier is generated once, at module
import: every invocation in the same process sends the same identifier,
while two separate module loads (separate processes) obtain distinct
identifiers from the generator. -/
theorem C1_amended (seed i j : Nat) :
    (discover_sent_probe (load_discover_module seed).1 i).messageId =
      (discover_sent_probe (load_discover_module seed).1 j).messageId ∧
    (load_discover_module seed).1.probeMessageId ≠
      (load_discover_module ((load_discover_module seed).2)).1.probeMessageId := by
  refine ⟨rfl, ?_⟩
  simp only [load_discover_module, uuid4]
  omega

theorem C1_amended_witness :
    (discover_sent_probe (load_discover_module 7).1 0).messageId =
      (discover_sent_probe (load_discover_module 7).1 1).messageId :=
  (C1_amended 7 0 1).1

/-- C3, counterexample.  With the source's fixed socket timeout of 5, a run
in which datagrams keep arriving 3 time units apart spends 3 + 3 + 5 =
11 time units in the receive loop, exceeding the claimed absolute
deadline of timeoutSeconds. -/
theorem C3_counterexample :
    recv_loop TIMEOUT [3, 3] = (2, 11) ∧ ¬ (recv_loop TIMEOUT [3, 3]).2 ≤ TIMEOUT := by
  decide

/-- C3, amended.  The socket timeout is set once and bounds each receive
call separately, so the loop is an idle timeout, not an absolute
deadline: a run that receives n datagrams spends at most
timeout * (n + 1) time units in the loop, and the loop terminates on
the first receive that waits longer than the timeout. -/
theorem C3_amended (timeout : Nat) (gaps : List Nat) :
    (recv_loop timeout gaps).2 ≤ timeout * ((recv_loop timeout gaps).1 + 1) := by
  induction gaps with
  | nil => simp [recv_loop]
  | cons gap rest ih =>
    simp only [recv_loop]
    split
    · rename_i hgap
      simp only
      have hmul : timeout * ((recv_loop timeout rest).1 + 1 + 1) =
          timeout * ((recv_loop timeout rest).1 + 1) + timeout := by ring
      omega
    · simp

theorem C3_amended_witness :
    (recv_loop TIMEOUT [3, 3]).2 ≤ TIMEOUT * ((recv_loop TIMEOUT [3, 3]).1 + 1) :=
  C3_amended TIMEOUT [3, 3]

/-- C4, counterexample.  A well-formed Probe-Match document containing one
XAddrs element whose text content is absent makes x.text.strip() raise,
so parse_probe_response returns zero address strings (not exactly M = 1)
and a parse-error diagnostic, refuting the claim for this well-formed
input. -/
theorem C4_counterexample :
    (findall
        (.node ⟨"http://www.w3.org/2003/05/soap-envelope", "Envelope"⟩ none
          [ .node scopesTag (some "onvif://www.onvif.org/model/M1") []
          , .node xaddrsTag none [] ])
        xaddrsTag).length = 1 ∧
    (parse_probe_response (.wellFormed
        (.node ⟨"http://www.w3.org/2003/05/soap-envelope", "Envelope"⟩ none
          [ .node scopesTag (some "onvif://www.onvif.org/model/M1") []
          , .node xaddrsTag none [] ]))).xaddrs.length = 0 ∧
    (parse_probe_response (.wellFormed
        (.node ⟨"http://www.w3.org/2003/05/soap-envelope", "Envelope"⟩ none
          [ .node scopesTag (some "onvif://www.onvif.org/model/M1") []
          , .node xaddrsTag none [] ]))).error ≠ none := by
  refine ⟨rfl, rfl, by decide⟩

/-- C4, amended.  For every well-formed Probe-Match document in which every
XAddrs element has present text content, parse_probe_response returns
exactly the whitespace-trimmed texts of the N Scopes elements and the
M XAddrs elements, each in document order, with no error; absence of
either element kind yields the corresponding empty sequence. -/
theorem C4_amended (root : XMLElem)
    (h : ∀ x ∈ findall root xaddrsTag, (XMLElem.text x).isSome) :
    (parse_probe_response (.wellFormed root)).scopes =
      (findall root scopesTag).map (fun s => ((XMLElem.text s).getD "").trim) ∧
    (parse_probe_response (.wellFormed root)).xaddrs =
      (findall root xaddrsTag).map (fun x => ((XMLElem.text x).getD "").trim) ∧
    (parse_probe_response (.wellFormed root)).scopes.length =
      (findall root scopesTag).length ∧
    (parse_probe_response (.wellFormed root)).xaddrs.length =
      (findall root xaddrsTag).length ∧
    (parse_probe_response (.wellFormed root)).error = none := by
  have hx := xaddrsCollect_all_some _ h
  simp [parse_probe_response, hx, List.length_map]

theorem C4_amended_witness :
    (parse_probe_response (.wellFormed
        (.node ⟨"http://www.w3.org/2003/05/soap-envelope", "Envelope"⟩ none
          [ .node scopesTag (some " onvif://www.onvif.org/model/M1 ") []
          , .node xaddrsTag (some " http://10.0.0.5/onvif ") []
          , .node xaddrsTag (some "http://10.0.0.6/onvif") [] ]))).xaddrs.length = 2 ∧
    (parse_probe_response (.wellFormed
        (.node ⟨"http://www.w3.org/2003/05/soap-envelope", "Envelope"⟩ none
          [ .node scopesTag (some " onvif://www.onvif.org/model/M1 ") []
          , .node xaddrsTag (some " http://10.0.0.5/onvif ") []
          , .node xaddrsTag (some "http://10.0.0.6/onvif") [] ]))).scopes.length = 1 := by
  have h := C4_amended
    (.node ⟨"http://www.w3.org/2003/05/soap-envelope", "Envelope"⟩ none
      [ .node scopesTag (some " onvif://www.onvif.org/model/M1 ") []
      , .node xaddrsTag (some " http://10.0.0.5/onvif ") []
      , .node xaddrsTag (some "http://10.0.0.6/onvif") [] ]) (by decide)
  refine ⟨?_, ?_⟩
  · rw [h.2.2.2.1]; decide
  · rw [h.2.2.1]; decide

/-- C5.  For every malformed XML input — abstracted by the ParseError the
XML library raises on it — parse_probe_response returns the default
record with the rendered error stored in its error field, and that
rendering is never the empty string; the function is total, so nothing
propagates to the caller. -/
theorem C5_parse_error_contained (e : ETError) :
    parse_probe_response (.malformed e) = { emptyInfo with error := some (etErrorStr e) } ∧
    etErrorStr e ≠ "" := by
  refine ⟨rfl, ?_⟩
  intro h
  have hlen := congrArg String.length h
  rw [show ("" : String).length = 0 from rfl] at hlen
  simp only [etErrorStr, String.length_append] at hlen
  have h7 : (": line " : String).length = 7 := rfl
  omega

theorem C5_witness :
    parse_probe_response (.malformed ⟨"syntax error", 1, 0⟩) =
      { emptyInfo with error := some (etErrorStr ⟨"syntax error", 1, 0⟩) } :=
  (C5_parse_error_contained ⟨"syntax error", 1, 0⟩).1

/-- C6.  For every service object, method name and argument mapping,
safe_call is total and its result is exactly one of: the
method-not-found error record when the attribute lookup raises, the
failure record carrying the raised message and its formatted traceback
when the invocation raises, or the success record carrying the
serialize_obj-normalized result; no exception propagates. -/
theorem C6_safe_call_total (lib : ZeepLib) (service : Service) (method_name : String)
    (args : List (String × PyVal)) :
    (∃ e, service.getattr method_name = .error e ∧
      safe_call lib service method_name args = .methodNotFound method_name e) ∨
    (∃ f, service.getattr method_name = .ok f ∧
      ((∃ e, f args = .error e ∧
        safe_call lib service method_name args = .failure e (format_exc e)) ∨
       (∃ v, f args = .ok v ∧
        safe_call lib service method_name args = .success (serialize_obj lib v)))) := by
  cases hg : service.getattr method_name with
  | error e => exact Or.inl ⟨e, rfl, by simp [safe_call, hg]⟩
  | ok f =>
    refine Or.inr ⟨f, rfl, ?_⟩
    cases hf : f args with
    | error e => exact Or.inl ⟨e, rfl, by simp [safe_call, hg, hf]⟩
    | ok v => exact Or.inr ⟨v, rfl, by simp [safe_call, hg, hf]⟩

/-- C10, counterexample.  The source regex captures one or more non-space
characters, not non-whitespace ones: on a scope whose model value
contains a tab, the extractor returns the tab-containing run, which is
not a run of non-whitespace characters as the claim states. -/
theorem C10_counterexample :
    extract_scope_field "onvif://www.onvif.org/model/A\tB" "onvif://www.onvif.org/model" =
      some "A\tB" ∧
    '\t' ∈ ("A\tB" : String).data ∧ ('\t').isWhitespace = true := by
  exact ⟨rfl, by decide, by decide⟩

/-- C10, amended.  The extractor returns the run of non-SPACE characters
following the first occurrence of the key prefix that is immediately
followed by at least one non-space character (the leftmost-match
reading of the regex), and when it returns a value that value is
non-empty and space-free — in particular it is never the empty
string; when no such occurrence exists it returns the absent marker. -/
theorem C10_amended (scope_str key : String) :
    extract_scope_field scope_str key = specExtractField scope_str key ∧
    (∀ v, extract_scope_field scope_str key = some v → v ≠ "" ∧ ' ' ∉ v.data) := by
  constructor
  · show _ = _
    rw [extract_scope_field, specExtractField, searchKeyVal_eq_spec]
    cases (scope_str.data.tails.filterMap (keyValAt (key.data ++ [ '/' ]))).head? with
    | none => rfl
    | some v => rfl
  · intro v hv
    rw [extract_scope_field] at hv
    cases hs : searchKeyVal (key.data ++ [ '/' ]) scope_str.data with
    | none => rw [hs] at hv; cases hv
    | some l =>
      rw [hs] at hv
      cases hv
      obtain ⟨hne, hsp⟩ := searchKeyVal_some_shape _ _ _ hs
      constructor
      · intro hempty
        apply hne
        have := congrArg String.data hempty
        exact this
      · exact hsp

theorem C10_amended_witness :
    ("ABC123" : String) ≠ "" ∧ ' ' ∉ ("ABC123" : String).data :=
  (C10_amended "onvif://www.onvif.org/model/ABC123" "onvif://www.onvif.org/model").2
    "ABC123" rfl

/-! ## Helper lemmas for the orchestrator -/

theorem dictGet?_dictSet {α : Type} (d : List (String × α)) (k m : String) (v : α) :
    dictGet? (dictSet d k v) m = if k = m then some v else dictGet? d m := by
  induction d with
  | nil =>
    simp only [dictSet, dictGet?]
  | cons kv rest ih =>
    obtain ⟨k1, v1⟩ := kv
    by_cases h1 : k1 = k
    · subst h1
      simp only [dictSet, if_pos rfl, dictGet?]
      by_cases h2 : k1 = m
      · simp [h2]
      · simp [h2]
    · simp only [dictSet, if_neg h1, dictGet?]
      by_cases h2 : k1 = m
      · subst h2
        have hk : ¬ k = k1 := fun hk => h1 hk.symm
        simp [hk]
      · simp [h2, ih]

/-- Report-entry shapes produced by the method loop itself: a safe_call
outcome, a note, or a per-token outcome list — never a bare creation
error string. -/
def isRecordedVal : EntryVal → Prop
  | .rawstr _ => False
  | _ => True

theorem processCall_fst (lib : ZeepLib) (svcName : String) (service : Service)
    (st : List (String × EntryVal) × Context × List (String × SvcVal))
    (call : String × List (String × PyVal)) :
    ∃ v, (processCall lib svcName service st call).1 = dictSet st.1 call.1 v ∧
      isRecordedVal v := by
  by_cases h1 : svcName = "media" ∧ call.1 = "GetProfiles"
  · exact ⟨.out (safe_call lib service call.1 call.2),
      by simp only [processCall, if_pos h1], trivial⟩
  · by_cases h2 : svcName = "imaging" ∧ call.1 = "GetImagingSettings"
    · refine ⟨imagingEntry lib service call.1 (imagingTokens st.2.1 st.2.2),
        by simp only [processCall, if_neg h1, if_pos h2], ?_⟩
      rw [imagingEntry]
      split
      · trivial
      · trivial
    · exact ⟨.out (safe_call lib service call.1 call.2),
        by simp only [processCall, if_neg h1, if_neg h2], trivial⟩

theorem processCall_services (lib : ZeepLib) (svcName : String) (service : Service)
    (st : List (String × EntryVal) × Context × List (String × SvcVal))
    (call : String × List (String × PyVal)) (k : String) (hk : k ≠ svcName) :
    dictGet? (processCall lib svcName service st call).2.2 k = dictGet? st.2.2 k := by
  by_cases h1 : svcName = "media" ∧ call.1 = "GetProfiles"
  · simp only [processCall, if_pos h1]
  · by_cases h2 : svcName = "imaging" ∧ call.1 = "GetImagingSettings"
    · simp only [processCall, if_neg h1, if_pos h2]
      have hne : ¬ svcName = k := fun h => hk h.symm
      simp only [dictGet?_dictSet, if_neg hne]
    · simp only [processCall, if_neg h1, if_neg h2]

theorem processCall_ctx (lib : ZeepLib) (svcName : String) (service : Service)
    (st : List (String × EntryVal) × Context × List (String × SvcVal))
    (call : String × List (String × PyVal)) (h : svcName ≠ "media") :
    (processCall lib svcName service st call).2.1 = st.2.1 := by
  have h1 : ¬ (svcName = "media" ∧ call.1 = "GetProfiles") := fun hc => h hc.1
  by_cases h2 : svcName = "imaging" ∧ call.1 = "GetImagingSettings"
  · simp only [processCall, if_neg h1, if_pos h2]
  · simp only [processCall, if_neg h1, if_neg h2]

theorem foldCalls_services (lib : ZeepLib) (svcName : String) (service : Service)
    (calls : List (String × List (String × PyVal)))
    (k : String) (hk : k ≠ svcName) :
    ∀ st, dictGet? ((calls.foldl (processCall lib svcName service) st).2.2) k =
      dictGet? st.2.2 k := by
  induction calls with
  | nil => intro st; rfl
  | cons c rest ih =>
    intro st
    rw [List.foldl_cons, ih]
    exact processCall_services lib svcName service st c k hk

theorem foldCalls_ctx (lib : ZeepLib) (svcName : String) (service : Service)
    (calls : List (String × List (String × PyVal))) (h : svcName ≠ "media") :
    ∀ st, ((calls.foldl (processCall lib svcName service) st).2.1) = st.2.1 := by
  induction calls with
  | nil => intro st; rfl
  | cons c rest ih =>
    intro st
    rw [List.foldl_cons, ih]
    exact processCall_ctx lib svcName service st c h

theorem foldCalls_pres (lib : ZeepLib) (svcName : String) (service : Service)
    (calls : List (String × List (String × PyVal))) (m : String) :
    ∀ st, (∃ v, dictGet? st.1 m = some v ∧ isRecordedVal v) →
      ∃ v, dictGet? ((calls.foldl (processCall lib svcName service) st).1) m = some v ∧
        isRecordedVal v := by
  induction calls with
  | nil => intro st h; exact h
  | cons c rest ih =>
    intro st h
    rw [List.foldl_cons]
    apply ih
    obtain ⟨v0, hv0, hr0⟩ := h
    obtain ⟨w, hw, hrw⟩ := processCall_fst lib svcName service st c
    rw [hw, dictGet?_dictSet]
    by_cases hcm : c.1 = m
    · exact ⟨w, by simp [hcm], hrw⟩
    · exact ⟨v0, by simp [hcm, hv0], hr0⟩

theorem foldCalls_mem (lib : ZeepLib) (svcName : String) (service : Service)
    (calls : List (String × List (String × PyVal))) (m : String)
    (a : List (String × PyVal)) (hmem : (m, a) ∈ calls) :
    ∀ st, ∃ v, dictGet? ((calls.foldl (processCall lib svcName service) st).1) m = some v ∧
      isRecordedVal v := by
  induction calls with
  | nil => cases hmem
  | cons c rest ih =>
    intro st
    rw [List.foldl_cons]
    rcases List.mem_cons.mp hmem with heq | hrest
    · apply foldCalls_pres
      obtain ⟨w, hw, hrw⟩ := processCall_fst lib svcName service st c
      have hc1 : c.1 = m := by rw [← heq]
      rw [hw, dictGet?_dictSet]
      exact ⟨w, by simp [hc1], hrw⟩
    · exact ih hrest _

theorem processService_self_err (lib : ZeepLib) (cam : Camera)
    (st : Context × List (String × SvcVal))
    (svc : String) (calls : List (String × List (String × PyVal)))
    (e : String) (hc : creatorFor cam svc = some (.error e)) :
    dictGet? (processService lib cam st (svc, calls)).2 svc =
      some (.table
        [ ("error", .rawstr ("falha ao criar serviço " ++ svc ++ ": " ++ e))
        , ("traceback", .rawstr (format_exc e)) ]) := by
  simp [processService, hc, dictGet?_dictSet]

theorem processService_self_ok (lib : ZeepLib) (cam : Camera)
    (st : Context × List (String × SvcVal))
    (svc : String) (calls : List (String × List (String × PyVal)))
    (s : Service) (hc : creatorFor cam svc = some (.ok s)) :
    ∃ d, dictGet? (processService lib cam st (svc, calls)).2 svc = some (.table d) ∧
      ∀ m a, (m, a) ∈ calls → ∃ v, dictGet? d m = some v ∧ isRecordedVal v := by
  simp only [processService, hc]
  refine ⟨(calls.foldl (processCall lib svc s) ([], st.1, st.2)).1, ?_, ?_⟩
  · simp [dictGet?_dictSet]
  · intro m a hma
    exact foldCalls_mem lib svc s calls m a hma _

theorem processService_ne (lib : ZeepLib) (cam : Camera)
    (st : Context × List (String × SvcVal))
    (entry : String × List (String × List (String × PyVal)))
    (k : String) (hk : k ≠ entry.1) :
    dictGet? (processService lib cam st entry).2 k = dictGet? st.2 k := by
  have hne : ¬ entry.1 = k := fun h => hk h.symm
  rcases hc : creatorFor cam entry.1 with _ | cr
  · simp only [processService, hc, dictGet?_dictSet, if_neg hne]
  · cases cr with
    | error e => simp only [processService, hc, dictGet?_dictSet, if_neg hne]
    | ok s =>
      simp only [processService, hc, dictGet?_dictSet, if_neg hne]
      exact foldCalls_services lib entry.1 s entry.2 k hk _

theorem processService_ctx (lib : ZeepLib) (cam : Camera)
    (st : Context × List (String × SvcVal))
    (entry : String × List (String × List (String × PyVal)))
    (h : entry.1 ≠ "media") :
    (processService lib cam st entry).1 = st.1 := by
  rcases hc : creatorFor cam entry.1 with _ | cr
  · simp only [processService, hc]
  · cases cr with
    | error e => simp only [processService, hc]
    | ok s =>
      simp only [processService, hc]
      exact foldCalls_ctx lib entry.1 s entry.2 h _

theorem processService_ne2 (lib : ZeepLib) (cam : Camera)
    (st : Context × List (String × SvcVal)) (svcName : String)
    (calls : List (String × List (String × PyVal)))
    (k : String) (hk : k ≠ svcName) :
    dictGet? (processService lib cam st (svcName, calls)).2 k = dictGet? st.2 k :=
  processService_ne lib cam st (svcName, calls) k hk

theorem processService_ctx2 (lib : ZeepLib) (cam : Camera)
    (st : Context × List (String × SvcVal)) (svcName : String)
    (calls : List (String × List (String × PyVal))) (h : svcName ≠ "media") :
    (processService lib cam st (svcName, calls)).1 = st.1 :=
  processService_ctx lib cam st (svcName, calls) h

theorem catalogPass_lookup_prop (lib : ZeepLib) (cam : Camera)
    (st : Context × List (String × SvcVal)) (svc : String)
    (calls : List (String × List (String × PyVal)))
    (h : (svc, calls) ∈ SERVICE_METHODS)
    (P : Option SvcVal → Prop)
    (hP : ∀ st2, P (dictGet? (processService lib cam st2 (svc, calls)).2 svc)) :
    P (dictGet? (catalogPass lib cam st).2 svc) := by
  fin_cases h
  · simp only [catalogPass, SERVICE_METHODS, List.foldl_cons, List.foldl_nil]
    rw [processService_ne2 lib cam _ "events" _ "device" (by decide),
        processService_ne2 lib cam _ "ptz" _ "device" (by decide),
        processService_ne2 lib cam _ "imaging" _ "device" (by decide),
        processService_ne2 lib cam _ "media" _ "device" (by decide)]
    exact hP _
  · simp only [catalogPass, SERVICE_METHODS, List.foldl_cons, List.foldl_nil]
    rw [processService_ne2 lib cam _ "events" _ "media" (by decide),
        processService_ne2 lib cam _ "ptz" _ "media" (by decide),
        processService_ne2 lib cam _ "imaging" _ "media" (by decide)]
    exact hP _
  · simp only [catalogPass, SERVICE_METHODS, List.foldl_cons, List.foldl_nil]
    rw [processService_ne2 lib cam _ "events" _ "imaging" (by decide),
        processService_ne2 lib cam _ "ptz" _ "imaging" (by decide)]
    exact hP _
  · simp only [catalogPass, SERVICE_METHODS, List.foldl_cons, List.foldl_nil]
    rw [processService_ne2 lib cam _ "events" _ "ptz" (by decide)]
    exact hP _
  · simp only [catalogPass, SERVICE_METHODS, List.foldl_cons, List.foldl_nil]
    exact hP _

theorem catalog_creator_exists (cam : Camera) (svc : String)
    (calls : List (String × List (String × PyVal)))
    (h : (svc, calls) ∈ SERVICE_METHODS) :
    ∃ cr, creatorFor cam svc = some cr := by
  fin_cases h <;> exact ⟨_, rfl⟩

theorem name_in_creation_error (svc e : String) :
    svc.data <:+: ("falha ao criar serviço " ++ svc ++ ": " ++ e).data := by
  refine ⟨("falha ao criar serviço " : String).data, ((": " : String) ++ e).data, ?_⟩
  have hd : ∀ x y : String, (x ++ y).data = x.data ++ y.data := fun x y => rfl
  rw [hd, hd, hd, hd]
  simp [List.append_assoc]

/-- The media ctx update of lines 137-162: after the GetProfiles call, the
profile-token extraction pipeline replaces the context's profiles when
the normalized value is a list, and leaves the context alone otherwise. -/
theorem processService_ctx_media (lib : ZeepLib) (cam : Camera)
    (st : Context × List (String × SvcVal)) (s : Service)
    (hc : creatorFor cam "media" = some (.ok s)) :
    (processService lib cam st ("media",
      [("GetProfiles", []), ("GetServiceCapabilities", [])])).1 =
      match profilesTokens (coerceSingle (unwrapProfileKey (getProfilesValue
        (safe_call lib s "GetProfiles" [])))) with
      | some toks => { st.1 with profiles := toks }
      | none => st.1 := by
  simp only [processService, hc, List.foldl_cons, List.foldl_nil]
  simp [processCall]

/-! ## Concrete cameras and library stubs used by the concrete runs -/

/-- A serialization library whose serialize_object is the identity. -/
def stubLib : ZeepLib :=
  { serialize_object := fun v => .ok v
    json_roundtrip := fun v => .ok v
    py_str := fun _ => "obj" }

/-- A service on which every attribute lookup raises AttributeError. -/
def stubService : Service := ⟨fun _ => .error "AttributeError"⟩

/-- A GetProfiles response with one profile that carries both a profile
token and a derivable video-source token. -/
def profilesC2 : PyVal :=
  .vlist
    [ .vdict [ ("token", .vstr "P1")
             , ("VideoSourceConfiguration", .vdict [("SourceToken", .vstr "VS1")]) ] ]

def mediaSvcC2 : Service :=
  ⟨fun m => if m = "GetProfiles" then .ok (fun _ => .ok profilesC2)
            else .error "AttributeError"⟩

def imagingSvcC2 : Service :=
  ⟨fun m => if m = "GetImagingSettings" then .ok (fun _ => .ok (.vstr "settings"))
            else .error "AttributeError"⟩

def camC2 : Camera :=
  { devicemgmt := .ok stubService
    create_media_service := .ok mediaSvcC2
    create_imaging_service := .ok imagingSvcC2
    create_ptz_service := .ok stubService
    create_events_service := .ok stubService
    create_analytics_service := .ok stubService }

def camC7 : Camera :=
  { devicemgmt := .ok stubService
    create_media_service := .ok stubService
    create_imaging_service := .error "imaging unsupported"
    create_ptz_service := .ok stubService
    create_events_service := .ok stubService
    create_analytics_service := .ok stubService }

def camC8 : Camera :=
  { devicemgmt := .ok stubService
    create_media_service := .ok stubService
    create_imaging_service := .ok stubService
    create_ptz_service := .error "ptz not supported"
    create_events_service := .ok stubService
    create_analytics_service := .ok stubService }

def mediaSvcC9 : Service :=
  ⟨fun m => if m = "GetProfiles" then
      .ok (fun _ => .ok (.vlist [.vdict [("token", .vstr "P1")], .vdict [("token", .vstr "P2")]]))
    else .error "AttributeError"⟩

/-! ## Claims about the orchestrator -/

/-- C2.  Evaluation of the orchestrator at the failing input: a run whose
media GetProfiles succeeds with a profile from which a video-source
token is derivable (vscToken yields VS1 from the very profile stored in
the report).  The conjuncts show that the GetProfiles result sits in
the report under services media GetProfiles, that the derivation helper
applied to that stored profile does yield the token, that the key
"media_GetProfiles" the source actually consults is absent from the
report, and that the run therefore records the prerequisite-missing
note for GetImagingSettings instead of invoking it — contradicting the
claim, whose derivation the source code misses by reading a key it
never writes. -/
theorem C2_bug_eval :
    dictGet? (runMain stubLib (.ok camC2)).1.services "media" =
      some (.table
        [ ("GetProfiles", .out (.success profilesC2))
        , ("GetServiceCapabilities",
            .out (.methodNotFound "GetServiceCapabilities" "AttributeError")) ]) ∧
    vscToken (.vdict [ ("token", .vstr "P1")
      , ("VideoSourceConfiguration", .vdict [("SourceToken", .vstr "VS1")]) ]) =
      some (.vstr "VS1") ∧
    dictGet? (runMain stubLib (.ok camC2)).1.services "media_GetProfiles" = none ∧
    dictGet? (runMain stubLib (.ok camC2)).1.services "imaging" =
      some (.table
        [ ("GetServiceCapabilities",
            .out (.methodNotFound "GetServiceCapabilities" "AttributeError"))
        , ("GetImagingSettings",
            .note "requer VideoSourceToken; não encontrado automaticamente") ]) :=
  ⟨rfl, rfl, rfl, rfl⟩

/-- C7, counterexample.  In a run where the imaging session creation fails,
the report's imaging entry holds only the creation-error record: the
configured pair (imaging, GetImagingSettings) has no outcome attributed
to it, refuting the claim for this run. -/
theorem C7_counterexample :
    dictGet? (runMain stubLib (.ok camC7)).1.services "imaging" =
      some (.table
        [ ("error", .rawstr "falha ao criar serviço imaging: imaging unsupported")
        , ("traceback", .rawstr "Traceback (most recent call last): imaging unsupported") ]) ∧
    dictGet?
      [ ("error", EntryVal.rawstr "falha ao criar serviço imaging: imaging unsupported")
      , ("traceback", EntryVal.rawstr "Traceback (most recent call last): imaging unsupported") ]
      "GetImagingSettings" = none :=
  ⟨rfl, rfl⟩

/-- C7, amended.  For every run that reaches the catalog pass and every
configured (service, method) pair whose service category's session
creation succeeds, the final report's entry for that category is a
result table containing an outcome under exactly that method name — a
safe_call outcome, an explicit note, or a per-token outcome list,
never a bare creation-error string; a category whose session creation
fails instead carries a category-level failure record (claim C8). -/
theorem C7_amended (lib : ZeepLib) (cam : Camera) (svc : String)
    (calls : List (String × List (String × PyVal)))
    (hsvc : (svc, calls) ∈ SERVICE_METHODS)
    (m : String) (a : List (String × PyVal)) (hma : (m, a) ∈ calls)
    (s : Service) (hs : creatorFor cam svc = some (.ok s)) :
    ∃ d v, dictGet? (runMain lib (.ok cam)).1.services svc = some (.table d) ∧
      dictGet? d m = some v ∧ isRecordedVal v := by
  have hserv : (runMain lib (.ok cam)).1.services =
      (catalogPass lib cam ({ profiles := [], video_source_tokens := [] },
        (initialServices lib cam).1)).2 := rfl
  rw [hserv]
  apply catalogPass_lookup_prop lib cam _ svc calls hsvc
    (fun o => ∃ d v, o = some (.table d) ∧ dictGet? d m = some v ∧ isRecordedVal v)
  intro st2
  obtain ⟨d, hd, hmem⟩ := processService_self_ok lib cam st2 svc calls s hs
  obtain ⟨v, hv, hr⟩ := hmem m a hma
  exact ⟨d, v, hd, hv, hr⟩

theorem C7_witness :
    ∃ d v, dictGet? (runMain stubLib (.ok camC2)).1.services "media" = some (.table d) ∧
      dictGet? d "GetProfiles" = some v ∧ isRecordedVal v :=
  C7_amended stubLib camC2 "media" [("GetProfiles", []), ("GetServiceCapabilities", [])]
    (by simp [SERVICE_METHODS]) "GetProfiles" [] (by simp) mediaSvcC2 rfl

/-- C8.  For every run whose connection succeeded and every configured
service category, the final report has an entry for that category; and
whenever that category's session creation fails, its entry is the
failure record whose error text carries the category name (the
stage-tag "falha ao criar serviço category-name"), while the other
categories keep their entries. -/
theorem C8_category_isolation (lib : ZeepLib) (cam : Camera) (svc : String)
    (calls : List (String × List (String × PyVal)))
    (hsvc : (svc, calls) ∈ SERVICE_METHODS) :
    (∃ sv, dictGet? (runMain lib (.ok cam)).1.services svc = some sv) ∧
    (∀ e, creatorFor cam svc = some (.error e) →
      dictGet? (runMain lib (.ok cam)).1.services svc =
        some (.table
          [ ("error", .rawstr ("falha ao criar serviço " ++ svc ++ ": " ++ e))
          , ("traceback", .rawstr (format_exc e)) ]) ∧
      svc.data <:+: ("falha ao criar serviço " ++ svc ++ ": " ++ e).data) := by
  have hserv : (runMain lib (.ok cam)).1.services =
      (catalogPass lib cam ({ profiles := [], video_source_tokens := [] },
        (initialServices lib cam).1)).2 := rfl
  constructor
  · rw [hserv]
    apply catalogPass_lookup_prop lib cam _ svc calls hsvc (fun o => ∃ sv, o = some sv)
    intro st2
    obtain ⟨cr, hc⟩ := catalog_creator_exists cam svc calls hsvc
    cases cr with
    | error e => exact ⟨_, processService_self_err lib cam st2 svc calls e hc⟩
    | ok s =>
      obtain ⟨d, hd, _⟩ := processService_self_ok lib cam st2 svc calls s hc
      exact ⟨_, hd⟩
  · intro e he
    refine ⟨?_, name_in_creation_error svc e⟩
    rw [hserv]
    apply catalogPass_lookup_prop lib cam _ svc calls hsvc (fun o => o =
      some (.table
        [ ("error", .rawstr ("falha ao criar serviço " ++ svc ++ ": " ++ e))
        , ("traceback", .rawstr (format_exc e)) ]))
    intro st2
    exact processService_self_err lib cam st2 svc calls e he

theorem C8_witness :
    (∃ sv, dictGet? (runMain stubLib (.ok camC8)).1.services "ptz" = some sv) ∧
    ("ptz" : String).data <:+:
      ("falha ao criar serviço " ++ "ptz" ++ ": " ++ "ptz not supported").data := by
  have h := C8_category_isolation stubLib camC8 "ptz" [("GetServiceCapabilities", []), ("GetNodes", [])]
    (by simp [SERVICE_METHODS])
  exact ⟨h.1, (h.2 "ptz not supported" rfl).2⟩

/-- C9.  In every run whose connection succeeds and whose GetProfiles call
(through the media service the camera created) succeeds with two
profile entries carrying tokens P1 and P2, the stream pass produces
exactly two entries in the report's stream_uris map, keyed P1 and P2 in
order, each being the independent per-token GetStreamUri call result,
which is by construction either a Success or a Failure record.  The
camera is otherwise arbitrary: the other categories' session creations
may succeed or fail. -/
theorem C9_stream_pass (lib : ZeepLib) (cam : Camera) (m0 : Service)
    (hm : cam.create_media_service = .ok m0)
    (hout : safe_call lib m0 "GetProfiles" [] = .success (.vlist
      [ .vdict [("token", .vstr "P1")], .vdict [("token", .vstr "P2")] ])) :
    ∃ e1 e2,
      (runMain lib (.ok cam)).1.stream_uris =
        some [ (.vstr "P1", e1), (.vstr "P2", e2) ] ∧
      e1 = getStreamUriEntry lib m0 (.vstr "P1") ∧
      e2 = getStreamUriEntry lib m0 (.vstr "P2") ∧
      ((∃ v, e1 = .ok v) ∨ ∃ msg tb, e1 = .err msg tb) ∧
      ((∃ v, e2 = .ok v) ∨ ∃ msg tb, e2 = .err msg tb) := by
  have hcr : creatorFor cam "media" = some (.ok m0) := by
    show some cam.create_media_service = some (.ok m0)
    rw [hm]
  have hctx : (catalogPass lib cam
      ({ profiles := [], video_source_tokens := [] },
        (initialServices lib cam).1)).1 =
      { profiles := [.vstr "P1", .vstr "P2"], video_source_tokens := [] } := by
    simp only [catalogPass, SERVICE_METHODS, List.foldl_cons, List.foldl_nil]
    rw [processService_ctx2 lib cam _ "events" _ (by decide),
        processService_ctx2 lib cam _ "ptz" _ (by decide),
        processService_ctx2 lib cam _ "imaging" _ (by decide),
        processService_ctx_media lib cam _ m0 hcr, hout]
    simp only [getProfilesValue, unwrapProfileKey, coerceSingle, profilesTokens,
      profileToken, dictGetV, dictGet?, pyOr, truthy]
    rw [processService_ctx2 lib cam _ "device" _ (by decide)]
    rfl
  refine ⟨getStreamUriEntry lib m0 (.vstr "P1"), getStreamUriEntry lib m0 (.vstr "P2"),
    ?_, rfl, rfl, ?_, ?_⟩
  · have hstream : (runMain lib (.ok cam)).1.stream_uris =
        (streamPass lib cam
          (catalogPass lib cam
            ({ profiles := [], video_source_tokens := [] },
              (initialServices lib cam).1)).1
          (initialServices lib cam).2).1 := rfl
    rw [hstream, hctx]
    simp only [streamPass]
    rw [hm]
    rfl
  · cases getStreamUriEntry lib m0 (.vstr "P1") with
    | ok v => exact Or.inl ⟨v, rfl⟩
    | err a b => exact Or.inr ⟨a, b, rfl⟩
  · cases getStreamUriEntry lib m0 (.vstr "P2") with
    | ok v => exact Or.inl ⟨v, rfl⟩
    | err a b => exact Or.inr ⟨a, b, rfl⟩

/-- A camera whose media service works while imaging, ptz and events
session creation all fail, exercising the partial-failure runs claim C9
also covers. -/
def camC9 : Camera :=
  { devicemgmt := .ok stubService
    create_media_service := .ok mediaSvcC9
    create_imaging_service := .error "imaging unsupported"
    create_ptz_service := .error "ptz unsupported"
    create_events_service := .error "events unsupported"
    create_analytics_service := .ok stubService }

theorem C9_witness :
    ∃ e1 e2,
      (runMain stubLib (.ok camC9)).1.stream_uris =
        some [ (.vstr "P1", e1), (.vstr "P2", e2) ] := by
  obtain ⟨e1, e2, h1, _⟩ := C9_stream_pass stubLib camC9 mediaSvcC9 rfl rfl
  exact ⟨e1, e2, h1⟩

end Onvif
